import Mathlib

/-!
Shallow embedding of the speech-to-text server repository
(`transcription_server.py`, `stt.py`, `config.py`, `llm_processor.py`,
`whisper_STTProvider.py`) and proofs of the specification claims.

External collaborators (the filesystem, the whisper model artifact and the
Ollama HTTP backend) are modelled as explicit environment records of oracles;
a Python exception raised by an external call is modelled as an
`Except.error` carrying the exception's message string.
-/

namespace STTApp

/-- `match a with | some x => some x | none => b` — Python
`dict.update` key-override semantics on one optional key. -/
def optOr {α : Type} (a b : Option α) : Option α :=
  match a with
  | some x => some x
  | none => b

/-- Drop leading whitespace characters from a character list. -/
def dropLeadingWs : List Char → List Char
  | [] => []
  | c :: cs => if c.isWhitespace then dropLeadingWs cs else c :: cs

/-- Python `str.strip()`: remove leading and trailing whitespace. -/
def pyStrip (s : String) : String :=
  String.mk ((dropLeadingWs ((dropLeadingWs s.data).reverse)).reverse)

/-- The string has no leading and no trailing whitespace character. -/
def hasNoEdgeWs (s : String) : Prop :=
  dropLeadingWs s.data = s.data ∧
  dropLeadingWs s.data.reverse = s.data.reverse

/-- The `whisper` configuration section: an option bag with the four keys
read by the code (`model`, `language`, `task`, `temperature`); a missing key
is `none`.  Temperature values are only stored and copied, never computed
with, so `Rat` stands in for Python floats. -/
structure WhisperCfg where
  model : Option String
  language : Option String
  task : Option String
  temperature : Option Rat
deriving DecidableEq, Repr

/-- The empty option bag `{}`. -/
def WhisperCfg.empty : WhisperCfg := ⟨none, none, none, none⟩

/-- Python `dict.update`: keys present in `n` overwrite those of `w`. -/
def WhisperCfg.update (w n : WhisperCfg) : WhisperCfg :=
  ⟨optOr n.model w.model, optOr n.language w.language,
   optOr n.task w.task, optOr n.temperature w.temperature⟩

/-- The `llm` configuration section (keys read by `LLMProcessor`). -/
structure LLMCfg where
  enabled : Option Bool
  model : Option String
  base_url : Option String
  temperature : Option Rat
  max_tokens : Option Nat
  prompt : Option String
deriving DecidableEq, Repr

/-- The empty option bag `{}`. -/
def LLMCfg.empty : LLMCfg := ⟨none, none, none, none, none, none⟩

/-- The `stt` configuration section. -/
structure SttSection where
  provider : Option String
deriving DecidableEq, Repr

/-- The loaded YAML configuration: named sections mapped to option bags;
a missing section is `none` (`Config.config.get(section, {})`). -/
structure ServerConfig where
  sttSection : Option SttSection
  whisperSection : Option WhisperCfg
  llmSection : Option LLMCfg
deriving DecidableEq, Repr

/-- `Config.whisper` property: `self.config.get("whisper", {})`. -/
def ServerConfig.whisper (c : ServerConfig) : WhisperCfg :=
  c.whisperSection.getD WhisperCfg.empty

/-- `Config.llm` property: `self.config.get("llm", {})`. -/
def ServerConfig.llm (c : ServerConfig) : LLMCfg :=
  c.llmSection.getD LLMCfg.empty

/-- `Config.stt` property: `self.config.get("stt", {})`. -/
def ServerConfig.stt (c : ServerConfig) : SttSection :=
  c.sttSection.getD ⟨none⟩

/-! ### Refinement Step (`llm_processor.py`) -/

/-- A successful HTTP response from `POST /api/generate`: its status code
and the optional `response` field of its JSON body
(`result.get("response", "")`). -/
structure GenResponse where
  status : Nat
  response : Option String
deriving DecidableEq, Repr

/-- Environment oracle for the Ollama backend.  `tagsResult` is the outcome
of `GET /api/tags` (`.error` = the request raised, e.g. connection refused or
timeout); `promptFormat` is Python `str.format(text=...)` applied to the
chosen template (it may raise on a malformed template); `genResult` is the
outcome of `POST /api/generate` (`.error` = raised, e.g. timeout). -/
structure OllamaEnv where
  tagsResult : Except String Nat
  promptFormat : String → String → Except String String
  genResult : Except String GenResponse

/-- `LLMProcessor`: holds the `llm` configuration bag it was built from
(`enabled`, `prompt` are re-read from it on each call). -/
structure LLMProcessor where
  config : LLMCfg
deriving DecidableEq, Repr

/-- The hard-coded default cleanup prompt of `LLMProcessor.__init__`. -/
def LLMProcessor.default_prompt : String :=
  "\n        Please clean up and improve the following transcription. \n        Fix grammar, punctuation, and formatting while preserving the original meaning.\n        Make it more readable and professional.\n        \n        Transcription: {text}\n        \n        Improved text:"

/-- `LLMProcessor._check_ollama_connection`: true iff `GET /api/tags`
neither raises nor returns a non-200 status. -/
def LLMProcessor.check_ollama_connection (env : OllamaEnv) : Bool :=
  match env.tagsResult with
  | Except.ok s => s == 200
  | Except.error _ => false

/-- `LLMProcessor.process`: total — every failure branch (disabled,
unreachable backend, template formatting error, generate call raised,
non-200 status, empty trimmed output) falls back to the input text; the
outer `try/except` catches everything else. -/
def LLMProcessor.process (p : LLMProcessor) (env : OllamaEnv) (text : String) : String :=
  if (p.config.enabled.getD true) = false then text
  else if LLMProcessor.check_ollama_connection env = false then text
  else
    match env.promptFormat (p.config.prompt.getD LLMProcessor.default_prompt) text with
    | Except.error _ => text
    | Except.ok _renderedPrompt =>
      match env.genResult with
      | Except.error _ => text
      | Except.ok resp =>
        if resp.status ≠ 200 then text
        else
          let processed := pyStrip (resp.response.getD "")
          if processed = "" then text else processed

/-! ### Engine Adapter (`whisper_STTProvider.py`) and Factory (`stt.py`) -/

/-- The effective whisper options passed to `model.transcribe` after
`config.get` defaulting. -/
structure TranscribeOpts where
  language : String
  task : String
  temperature : Rat
deriving DecidableEq, Repr

/-- Environment oracle for the whisper library and the filesystem.
`loadModel` is `whisper.load_model(name)` (`.error` = raised);
`modelTranscribe` is the opaque loaded model's `transcribe` call, keyed by
the model name it was loaded with and the effective options
(`.error` = raised, carrying the original message); `fileExists` is
`Path(p).exists()`. -/
structure SttEnv where
  loadModel : String → Except String Unit
  modelTranscribe : String → TranscribeOpts → String → Except String String
  fileExists : String → Bool

/-- `WhisperProvider`: records the configuration bag it was constructed
from (the loaded model artifact is opaque and determined by
`cfg.model.getD "small"`). -/
structure WhisperProvider where
  cfg : WhisperCfg
deriving DecidableEq, Repr

/-- `WhisperProvider.__init__` / `_load_model`: loads the model named by
the config (default `"small"`); a load failure is re-raised. -/
def WhisperProvider.create (cfg : WhisperCfg) (env : SttEnv) :
    Except String WhisperProvider :=
  match env.loadModel (cfg.model.getD "small") with
  | Except.error e => Except.error e
  | Except.ok _ => Except.ok ⟨cfg⟩

/-- `WhisperProvider.transcribe`: missing file raises `FileNotFoundError`;
a model error is re-raised with its original message; otherwise the model's
text is returned `.strip()`ped. -/
def WhisperProvider.transcribe (p : WhisperProvider) (env : SttEnv)
    (audio_path : String) : Except String String :=
  if env.fileExists audio_path = false then
    Except.error ("Audio file not found: " ++ audio_path)
  else
    match env.modelTranscribe (p.cfg.model.getD "small")
        ⟨p.cfg.language.getD "en", p.cfg.task.getD "transcribe",
         p.cfg.temperature.getD 0⟩ audio_path with
    | Except.error e => Except.error e
    | Except.ok raw => Except.ok (pyStrip raw)

/-- `STT.create_provider`: the only known kind is `"whisper"`; any other
name raises `ValueError(f"Unknown STT provider: {provider_type}")`. -/
def STT.create_provider (provider_type : String) (cfg : WhisperCfg)
    (env : SttEnv) : Except String WhisperProvider :=
  if provider_type = "whisper" then WhisperProvider.create cfg env
  else Except.error ("Unknown STT provider: " ++ provider_type)

/-! ### Session State and Request Router (`transcription_server.py`) -/

/-- `MultiModelTranscriptionServer`'s mutable fields: the loaded config,
the active engine adapter and the optional refinement step. -/
structure ServerState where
  config : ServerConfig
  stt_provider : Option WhisperProvider
  llm : Option LLMProcessor
deriving DecidableEq, Repr

/-- `_get_current_provider`: `"whisper"` iff the active provider is a
`WhisperProvider` instance (the only provider class), else `"unknown"`. -/
def get_current_provider (st : ServerState) : String :=
  match st.stt_provider with
  | some _ => "whisper"
  | none => "unknown"

/-- `_get_provider_config`: `config.whisper` for `"whisper"`, else `{}`. -/
def get_provider_config (st : ServerState) (p : String) : WhisperCfg :=
  if p = "whisper" then st.config.whisper else WhisperCfg.empty

/-- A JSON response: HTTP status plus the optional fields the handlers
put into their bodies. -/
structure Response where
  status : Nat
  transcription : Option String
  provider : Option String
  error : Option String
  message : Option String
  cfgEcho : Option WhisperCfg
deriving DecidableEq, Repr

/-- An error response `{'error': e}` with the given status. -/
def Response.err (s : Nat) (e : String) : Response :=
  ⟨s, none, none, some e, none, none⟩

/-- Stands in for `str(e)` of the exception `await request.json()` raises
on an unparseable body; its exact text is irrelevant to every claim. -/
def jsonErrorMessage : String := "Invalid JSON body"

/-- Stands in for the `AttributeError` message raised when
`self.stt_provider` is `None` at transcription time. -/
def noneProviderMessage : String :=
  "'NoneType' object has no attribute 'transcribe'"

/-- Body of `POST /transcribe`; `none` fields model absent keys. -/
structure TranscribeBody where
  audio_path : Option String
  provider : Option String
deriving DecidableEq, Repr

/-- Body of `POST /switch_provider`. -/
structure SwitchBody where
  provider : Option String
deriving DecidableEq, Repr

/-- Body of `POST /reload_model`. -/
structure ReloadBody where
  model : Option String
  language : Option String
  task : Option String
  temperature : Option Rat
deriving DecidableEq, Repr

/-- `transcribe_handler`.  `body = none` models an unparseable JSON body
(`request.json()` raises inside the catch-all `try`).  Returns the
post-call session state together with the response. -/
def transcribe_handler (st : ServerState) (body : Option TranscribeBody)
    (env : SttEnv) (lenv : OllamaEnv) : ServerState × Response :=
  match body with
  | none => (st, Response.err 500 jsonErrorMessage)
  | some data =>
    let a := data.audio_path.getD ""
    if a = "" ∨ env.fileExists a = false then
      (st, Response.err 400 "Invalid audio path")
    else
      let afterSwap : Except String ServerState :=
        match data.provider with
        | none => Except.ok st
        | some p =>
          if p ≠ "" ∧ p ≠ get_current_provider st then
            match STT.create_provider p (get_provider_config st p) env with
            | Except.error e => Except.error e
            | Except.ok prov => Except.ok { st with stt_provider := some prov }
          else Except.ok st
      match afterSwap with
      | Except.error e => (st, Response.err 500 e)
      | Except.ok st1 =>
        match st1.stt_provider with
        | none => (st1, Response.err 500 noneProviderMessage)
        | some prov =>
          match prov.transcribe env a with
          | Except.error e => (st1, Response.err 500 e)
          | Except.ok t =>
            let t2 :=
              match st1.llm with
              | some proc =>
                if (st1.config.llm.enabled.getD true) = true
                then proc.process lenv t else t
              | none => t
            (st1, ⟨200, some t2, some (get_current_provider st1),
                   none, none, none⟩)

/-- `switch_provider_handler`.  A missing or falsy provider name is a 400;
a construction failure leaves the state untouched and surfaces as 500. -/
def switch_provider_handler (st : ServerState) (body : Option SwitchBody)
    (env : SttEnv) : ServerState × Response :=
  match body with
  | none => (st, Response.err 500 jsonErrorMessage)
  | some data =>
    let p := data.provider.getD ""
    if p = "" then (st, Response.err 400 "Provider not specified")
    else
      match STT.create_provider p (get_provider_config st p) env with
      | Except.error e => (st, Response.err 500 e)
      | Except.ok prov =>
        ({ st with stt_provider := some prov },
         ⟨200, none, some p, none, some ("Switched to " ++ p), none⟩)

/-- The merged `new_config` of `reload_model_handler`: each key comes from
the request body if present, else from the current whisper section, else
from the documented default. -/
def mergeWhisperCfg (w : WhisperCfg) (d : ReloadBody) : WhisperCfg :=
  ⟨some (d.model.getD (w.model.getD "small")),
   some (d.language.getD (w.language.getD "en")),
   some (d.task.getD (w.task.getD "transcribe")),
   some (d.temperature.getD (w.temperature.getD 0))⟩

/-- `reload_model_handler`.  `self.config.whisper.update(new_config)`
mutates the section dict in place when the section exists; when the
`whisper` section is absent the property returns a fresh `{}` and the
update is lost (`Option.map` captures exactly this).  The provider is then
reconstructed from the merged config (both `isinstance` branches do the
same), and a construction failure leaves `stt_provider` untouched. -/
def reload_model_handler (st : ServerState) (body : Option ReloadBody)
    (env : SttEnv) : ServerState × Response :=
  match body with
  | none => (st, Response.err 500 jsonErrorMessage)
  | some data =>
    let new_config := mergeWhisperCfg st.config.whisper data
    let config1 : ServerConfig :=
      { st.config with
        whisperSection := st.config.whisperSection.map (fun w => w.update new_config) }
    let st1 : ServerState := { st with config := config1 }
    match WhisperProvider.create new_config env with
    | Except.error e => (st1, Response.err 500 e)
    | Except.ok prov =>
      ({ st1 with stt_provider := some prov },
       ⟨200, none, some "whisper", none, some "Model reloaded successfully",
        some new_config⟩)

/-- `initialize_models`: build the initial session state from the loaded
configuration; a provider-construction failure propagates (startup is
fatal on failure).  The refiner is built iff `llm.get("enabled", True)`. -/
def initialize_models (cfg : ServerConfig) (env : SttEnv) :
    Except String ServerState :=
  let primary := cfg.stt.provider.getD "whisper"
  let provider_config :=
    if primary = "whisper" then cfg.whisper else WhisperCfg.empty
  match STT.create_provider primary provider_config env with
  | Except.error e => Except.error e
  | Except.ok prov =>
    let llmOpt :=
      if (cfg.llm.enabled.getD true) = true
      then some (LLMProcessor.mk cfg.llm) else none
    Except.ok ⟨cfg, some prov, llmOpt⟩

/-! ### Strip lemmas -/

/-- Stripping leading whitespace is idempotent. -/
theorem dropLeadingWs_idem (l : List Char) :
    dropLeadingWs (dropLeadingWs l) = dropLeadingWs l := by
  induction l with
  | nil => rfl
  | cons c cs ih =>
    by_cases h : c.isWhitespace
    · simp [dropLeadingWs, h, ih]
    · simp [dropLeadingWs, h]

/-- The result of stripping leading whitespace is empty or starts with a
non-whitespace character. -/
theorem dropLeadingWs_head (l : List Char) :
    dropLeadingWs l = [] ∨
    ∃ c cs, dropLeadingWs l = c :: cs ∧ c.isWhitespace = false := by
  induction l with
  | nil => exact Or.inl rfl
  | cons c cs ih =>
    by_cases h : c.isWhitespace
    · simpa [dropLeadingWs, h] using ih
    · exact Or.inr ⟨c, cs, by simp [dropLeadingWs, h], by simp [h]⟩

/-- How leading-whitespace stripping acts on an appended list. -/
theorem dropLeadingWs_append (a b : List Char) :
    dropLeadingWs (a ++ b) =
      if dropLeadingWs a = [] then dropLeadingWs b
      else dropLeadingWs a ++ b := by
  induction a with
  | nil => simp [dropLeadingWs]
  | cons c cs ih =>
    by_cases h : c.isWhitespace
    · simp [dropLeadingWs, h, ih]
    · simp [dropLeadingWs, h]

/-- A stripped string has no leading and no trailing whitespace. -/
theorem pyStrip_hasNoEdgeWs (s : String) : hasNoEdgeWs (pyStrip s) := by
  unfold pyStrip hasNoEdgeWs
  constructor
  · show dropLeadingWs ((dropLeadingWs ((dropLeadingWs s.data).reverse)).reverse) =
      (dropLeadingWs ((dropLeadingWs s.data).reverse)).reverse
    rcases dropLeadingWs_head s.data with hm | ⟨c, cs, hm, hc⟩
    · simp [hm, dropLeadingWs]
    · rw [hm]
      rw [show (c :: cs).reverse = cs.reverse ++ [c] by simp]
      rw [dropLeadingWs_append]
      by_cases hz : dropLeadingWs cs.reverse = []
      · simp [hz, dropLeadingWs, hc]
      · simp [hz, dropLeadingWs, hc]
  · show dropLeadingWs ((dropLeadingWs ((dropLeadingWs s.data).reverse)).reverse).reverse =
      ((dropLeadingWs ((dropLeadingWs s.data).reverse)).reverse).reverse
    rw [List.reverse_reverse, dropLeadingWs_idem]

/-! ### Shared concrete environments and states for witnesses -/

/-- An Ollama environment on which every call succeeds. -/
def okOllamaEnv : OllamaEnv :=
  ⟨Except.ok 200, fun _ t => Except.ok t, Except.ok ⟨200, some "refined text"⟩⟩

/-- An STT environment where the model loads, every file exists, and the
model answers with surrounding whitespace. -/
def okSttEnv : SttEnv :=
  ⟨fun _ => Except.ok (), fun _ _ _ => Except.ok " hello world ", fun _ => true⟩

/-- An STT environment where `whisper.load_model` raises. -/
def failLoadEnv : SttEnv :=
  ⟨fun _ => Except.error "load boom", fun _ _ _ => Except.ok "x", fun _ => true⟩

/-- An STT environment where no file exists. -/
def noFileEnv : SttEnv :=
  ⟨fun _ => Except.ok (), fun _ _ _ => Except.ok "x", fun _ => false⟩

/-- A server state with empty config sections and no initialized models. -/
def st0 : ServerState := ⟨⟨none, none, none⟩, none, none⟩

/-! ### Claims -/

/-- C1: for every input string, `LLMProcessor.process` never propagates an
error to its caller: if refinement is disabled, the backend is unreachable,
prompt rendering or the generation call raises, the generation call returns
a non-success status, or the trimmed output is empty, `process` returns the
original input string unchanged.  (`process` is a total Lean function, so
it cannot raise at all.) -/
theorem claim_C1 (p : LLMProcessor) (env : OllamaEnv) (text : String)
    (h : (p.config.enabled.getD true) = false ∨
         LLMProcessor.check_ollama_connection env = false ∨
         (∃ e, env.promptFormat (p.config.prompt.getD LLMProcessor.default_prompt) text
                 = Except.error e) ∨
         (∃ e, env.genResult = Except.error e) ∨
         (∃ r, env.genResult = Except.ok r ∧ r.status ≠ 200) ∨
         (∃ r, env.genResult = Except.ok r ∧ r.status = 200 ∧
               pyStrip (r.response.getD "") = "")) :
    p.process env text = text := by
  unfold LLMProcessor.process
  rcases h with h | h | ⟨e, he⟩ | ⟨e, he⟩ | ⟨r, hr, hs⟩ | ⟨r, hr, hs, ht⟩
  · simp [h]
  · by_cases h1 : (p.config.enabled.getD true) = false
    · simp [h1]
    · simp [h1, h]
  · by_cases h1 : (p.config.enabled.getD true) = false
    · simp [h1]
    · by_cases h2 : LLMProcessor.check_ollama_connection env = false
      · simp [h1, h2]
      · simp [h1, h2, he]
  · by_cases h1 : (p.config.enabled.getD true) = false
    · simp [h1]
    · by_cases h2 : LLMProcessor.check_ollama_connection env = false
      · simp [h1, h2]
      · cases hpf : env.promptFormat (p.config.prompt.getD LLMProcessor.default_prompt) text
        · simp [h1, h2, hpf]
        · simp [h1, h2, hpf, he]
  · by_cases h1 : (p.config.enabled.getD true) = false
    · simp [h1]
    · by_cases h2 : LLMProcessor.check_ollama_connection env = false
      · simp [h1, h2]
      · cases hpf : env.promptFormat (p.config.prompt.getD LLMProcessor.default_prompt) text
        · simp [h1, h2, hpf]
        · simp [h1, h2, hpf, hr, hs]
  · by_cases h1 : (p.config.enabled.getD true) = false
    · simp [h1]
    · by_cases h2 : LLMProcessor.check_ollama_connection env = false
      · simp [h1, h2]
      · cases hpf : env.promptFormat (p.config.prompt.getD LLMProcessor.default_prompt) text
        · simp [h1, h2, hpf]
        · simp [h1, h2, hpf, hr, hs, ht]

/-- Witness for C1: with refinement disabled, a concrete call returns the
input unchanged. -/
theorem claim_C1_witness :
    LLMProcessor.process ⟨⟨some false, none, none, none, none, none⟩⟩
      okOllamaEnv "hello" = "hello" :=
  claim_C1 ⟨⟨some false, none, none, none, none, none⟩⟩ okOllamaEnv "hello"
    (Or.inl rfl)

/-- C9: `LLMProcessor.process` returns either the input itself or a
non-empty string with no leading or trailing whitespace; in particular a
non-empty input is never mapped to an empty output. -/
theorem claim_C9 (p : LLMProcessor) (env : OllamaEnv) (text : String) :
    (p.process env text = text ∨
      (p.process env text ≠ "" ∧ hasNoEdgeWs (p.process env text))) ∧
    (text ≠ "" → p.process env text ≠ "") := by
  unfold LLMProcessor.process
  by_cases h1 : (p.config.enabled.getD true) = false
  · simp [h1]
  · by_cases h2 : LLMProcessor.check_ollama_connection env = false
    · simp [h1, h2]
    · cases hpf : env.promptFormat (p.config.prompt.getD LLMProcessor.default_prompt) text
      · simp [h1, h2, hpf]
      · cases hg : env.genResult
        · simp [h1, h2, hpf, hg]
        · rename_i resp
          by_cases hs : resp.status = 200
          · by_cases hemp : pyStrip (resp.response.getD "") = ""
            · simp [h1, h2, hpf, hg, hs, hemp]
            · constructor
              · right
                constructor
                · simp [h1, h2, hpf, hg, hs, hemp]
                · simp only [h1, h2, hpf, hg, hs, hemp]
                  simp [h1, h2, hpf, hg, hs, hemp]
                  exact pyStrip_hasNoEdgeWs (resp.response.getD "")
              · intro _
                simp [h1, h2, hpf, hg, hs, hemp]
          · simp [h1, h2, hpf, hg, hs]

/-- Witness for C9: a concrete successful refinement call satisfies the
disjunction and the non-emptiness implication. -/
theorem claim_C9_witness :
    (LLMProcessor.process ⟨LLMCfg.empty⟩ okOllamaEnv "hi" = "hi" ∨
      (LLMProcessor.process ⟨LLMCfg.empty⟩ okOllamaEnv "hi" ≠ "" ∧
        hasNoEdgeWs (LLMProcessor.process ⟨LLMCfg.empty⟩ okOllamaEnv "hi"))) ∧
    ("hi" ≠ "" → LLMProcessor.process ⟨LLMCfg.empty⟩ okOllamaEnv "hi" ≠ "") :=
  claim_C9 ⟨LLMCfg.empty⟩ okOllamaEnv "hi"

/-- C8: an unparseable JSON body on `/transcribe` or `/switch_provider`
lands in the catch-all branch: status 500 (not 400) and the session state —
in particular the active engine — is unchanged. -/
theorem claim_C8 (st : ServerState) (env : SttEnv) (lenv : OllamaEnv) :
    transcribe_handler st none env lenv = (st, Response.err 500 jsonErrorMessage) ∧
    switch_provider_handler st none env = (st, Response.err 500 jsonErrorMessage) :=
  ⟨rfl, rfl⟩

/-- C5: for every provider name other than `"whisper"`, the factory fails
with the `Unknown STT provider` error rather than defaulting, and
`POST /switch_provider` with such a (non-empty) name responds 500 with an
error message that references the requested name. -/
theorem claim_C5 (pname : String) (cfg : WhisperCfg) (env : SttEnv)
    (st : ServerState) (hne : pname ≠ "whisper") (hnz : pname ≠ "") :
    STT.create_provider pname cfg env =
      Except.error ("Unknown STT provider: " ++ pname) ∧
    switch_provider_handler st (some ⟨some pname⟩) env =
      (st, Response.err 500 ("Unknown STT provider: " ++ pname)) ∧
    (∃ pre, ("Unknown STT provider: " ++ pname) = pre ++ pname) := by
  refine ⟨?_, ?_, ⟨"Unknown STT provider: ", rfl⟩⟩
  · simp [STT.create_provider, hne]
  · simp [switch_provider_handler, STT.create_provider, hne, hnz]

/-- Witness for C5: the concrete name `"unknown"` is rejected by the
factory and yields a 500 from `/switch_provider`. -/
theorem claim_C5_witness :
    STT.create_provider "unknown" WhisperCfg.empty okSttEnv =
      Except.error ("Unknown STT provider: " ++ "unknown") ∧
    switch_provider_handler st0 (some ⟨some "unknown"⟩) okSttEnv =
      (st0, Response.err 500 ("Unknown STT provider: " ++ "unknown")) ∧
    (∃ pre, ("Unknown STT provider: " ++ "unknown") = pre ++ "unknown") :=
  claim_C5 "unknown" WhisperCfg.empty okSttEnv st0 (by decide) (by decide)

/-- C7: a `/transcribe` request whose body lacks `audio_path`, carries an
empty one, or names a non-existent file gets a 400 response, the state is
unchanged, and the engine is not invoked: the result is the same for every
environment that agrees on `fileExists` (so neither `loadModel` nor
`modelTranscribe` is consulted). -/
theorem claim_C7 (st : ServerState) (body : TranscribeBody) (env : SttEnv)
    (lenv : OllamaEnv)
    (hinv : body.audio_path = none ∨ body.audio_path = some "" ∨
            ∃ a, body.audio_path = some a ∧ env.fileExists a = false) :
    ∀ env' : SttEnv, env'.fileExists = env.fileExists →
      transcribe_handler st (some body) env' lenv =
        (st, Response.err 400 "Invalid audio path") := by
  intro env' hfe
  unfold transcribe_handler
  rcases hinv with h | h | ⟨a, ha, hne⟩
  · simp [h]
  · simp [h]
  · simp [ha, hfe, hne]

/-- Witness for C7: `{"audio_path": "missing.wav"}` against a filesystem
with no files returns status 400 with the state untouched. -/
theorem claim_C7_witness :
    transcribe_handler st0 (some ⟨some "missing.wav", none⟩) noFileEnv okOllamaEnv =
      (st0, Response.err 400 "Invalid audio path") :=
  claim_C7 st0 ⟨some "missing.wav", none⟩ noFileEnv okOllamaEnv
    (Or.inr (Or.inr ⟨"missing.wav", rfl, rfl⟩)) noFileEnv rfl

/-- An STT environment whose model call answers whitespace-only text on an
existing file. -/
def blankSttEnv : SttEnv :=
  ⟨fun _ => Except.ok (), fun _ _ _ => Except.ok "   ", fun _ => true⟩

/-- Counterexample to C3: on an existing readable file where the underlying
model returns whitespace-only text, `WhisperProvider.transcribe` returns
successfully with empty output — it neither returns non-empty trimmed text
nor fails. -/
theorem claim_C3_counterexample :
    ¬ ((∃ t, WhisperProvider.transcribe ⟨WhisperCfg.empty⟩ blankSttEnv
            "sample.wav" = Except.ok t ∧ t ≠ "") ∨
       (∃ e, WhisperProvider.transcribe ⟨WhisperCfg.empty⟩ blankSttEnv
            "sample.wav" = Except.error e)) := by
  have h : WhisperProvider.transcribe ⟨WhisperCfg.empty⟩ blankSttEnv
      "sample.wav" = Except.ok "" := by
    simp [WhisperProvider.transcribe, blankSttEnv]
    rfl
  intro hcl
  rcases hcl with ⟨t, ht, hne⟩ | ⟨e, he⟩
  · rw [h] at ht
    exact hne (Except.ok.inj ht).symm
  · rw [h] at he
    exact Except.noConfusion he

/-- C3 amended: for every existing readable audio file, `transcribe` either
fails with the underlying model's original error message or returns the
model's text trimmed (possibly empty); it never silently substitutes
text. -/
theorem claim_C3_amended (p : WhisperProvider) (env : SttEnv)
    (audio_path : String) (hex : env.fileExists audio_path = true) :
    (∃ e, env.modelTranscribe (p.cfg.model.getD "small")
          ⟨p.cfg.language.getD "en", p.cfg.task.getD "transcribe",
           p.cfg.temperature.getD 0⟩ audio_path = Except.error e ∧
        p.transcribe env audio_path = Except.error e) ∨
    (∃ raw, env.modelTranscribe (p.cfg.model.getD "small")
          ⟨p.cfg.language.getD "en", p.cfg.task.getD "transcribe",
           p.cfg.temperature.getD 0⟩ audio_path = Except.ok raw ∧
        p.transcribe env audio_path = Except.ok (pyStrip raw)) := by
  unfold WhisperProvider.transcribe
  cases hm : env.modelTranscribe (p.cfg.model.getD "small")
      ⟨p.cfg.language.getD "en", p.cfg.task.getD "transcribe",
       p.cfg.temperature.getD 0⟩ audio_path
  · exact Or.inl ⟨_, rfl, by simp [hex, hm]⟩
  · exact Or.inr ⟨_, rfl, by simp [hex, hm]⟩

/-- Witness for C3 amended: a concrete successful model call comes back
trimmed. -/
theorem claim_C3_amended_witness :
    (∃ e, okSttEnv.modelTranscribe "small" ⟨"en", "transcribe", 0⟩ "a.wav"
            = Except.error e ∧
        WhisperProvider.transcribe ⟨WhisperCfg.empty⟩ okSttEnv "a.wav"
            = Except.error e) ∨
    (∃ raw, okSttEnv.modelTranscribe "small" ⟨"en", "transcribe", 0⟩ "a.wav"
            = Except.ok raw ∧
        WhisperProvider.transcribe ⟨WhisperCfg.empty⟩ okSttEnv "a.wav"
            = Except.ok (pyStrip raw)) :=
  claim_C3_amended ⟨WhisperCfg.empty⟩ okSttEnv "a.wav" rfl

/-- C2: when a swap — explicit switch, per-request override, or reload —
attempts to construct a new adapter and the construction fails, the active
engine after the failed call equals the active engine before the call and
the endpoint responds 500 with the error message; for switch and the
per-request override the whole session state is untouched, and for reload
only the in-memory config is touched while `stt_provider` is preserved. -/
theorem claim_C2 (st : ServerState) (env : SttEnv) (lenv : OllamaEnv)
    (e : String) :
    (∀ p, p ≠ "" →
       STT.create_provider p (get_provider_config st p) env = Except.error e →
       switch_provider_handler st (some ⟨some p⟩) env =
         (st, Response.err 500 e)) ∧
    (∀ a p, a ≠ "" → env.fileExists a = true → p ≠ "" →
       p ≠ get_current_provider st →
       STT.create_provider p (get_provider_config st p) env = Except.error e →
       transcribe_handler st (some ⟨some a, some p⟩) env lenv =
         (st, Response.err 500 e)) ∧
    (∀ d : ReloadBody,
       WhisperProvider.create (mergeWhisperCfg st.config.whisper d) env =
         Except.error e →
       (reload_model_handler st (some d) env).1.stt_provider = st.stt_provider ∧
       (reload_model_handler st (some d) env).2 = Response.err 500 e) := by
  refine ⟨?_, ?_, ?_⟩
  · intro p hp hc
    simp [switch_provider_handler, hp, hc]
  · intro a p ha hex hp hcur hc
    simp [transcribe_handler, ha, hex, hp, hcur, hc]
  · intro d hc
    constructor
    · simp [reload_model_handler, hc]
    · simp [reload_model_handler, hc]

/-- Witness for C2: against an environment whose model load always raises,
all three swap paths fail with 500 and leave the active engine (here:
uninitialized) exactly as it was. -/
theorem claim_C2_witness :
    switch_provider_handler st0 (some ⟨some "whisper"⟩) failLoadEnv =
      (st0, Response.err 500 "load boom") ∧
    transcribe_handler st0 (some ⟨some "a.wav", some "whisper"⟩) failLoadEnv
        okOllamaEnv = (st0, Response.err 500 "load boom") ∧
    (reload_model_handler st0 (some ⟨none, none, none, none⟩)
        failLoadEnv).1.stt_provider = st0.stt_provider ∧
    (reload_model_handler st0 (some ⟨none, none, none, none⟩)
        failLoadEnv).2 = Response.err 500 "load boom" := by
  obtain ⟨h1, h2, h3⟩ := claim_C2 st0 failLoadEnv okOllamaEnv "load boom"
  refine ⟨h1 "whisper" (by decide) rfl, ?_, h3 ⟨none, none, none, none⟩ rfl⟩
  exact h2 "a.wav" "whisper" (by decide) rfl (by decide) (by decide) rfl

/-- C6: a `/transcribe` request naming a provider different from the
current one (with a valid audio path) constructs a new adapter from that
provider's configuration section and replaces the active engine before the
transcription runs — the whole call behaves exactly like a call without
override against the already-swapped state, and the final active engine is
the newly constructed adapter.  If the named provider equals the current
one, the call behaves like a call without override and the active engine is
left unchanged. -/
theorem claim_C6 (st : ServerState) (env : SttEnv) (lenv : OllamaEnv)
    (a p : String) (ha : a ≠ "") (hex : env.fileExists a = true) :
    (p ≠ "" → p ≠ get_current_provider st →
      ∀ prov, STT.create_provider p (get_provider_config st p) env =
          Except.ok prov →
        transcribe_handler st (some ⟨some a, some p⟩) env lenv =
          transcribe_handler { st with stt_provider := some prov }
            (some ⟨some a, none⟩) env lenv ∧
        (transcribe_handler st (some ⟨some a, some p⟩) env lenv).1.stt_provider
          = some prov) ∧
    (p = get_current_provider st →
      transcribe_handler st (some ⟨some a, some p⟩) env lenv =
        transcribe_handler st (some ⟨some a, none⟩) env lenv ∧
      (transcribe_handler st (some ⟨some a, some p⟩) env lenv).1.stt_provider
        = st.stt_provider) := by
  constructor
  · intro hp hcur prov hc
    have hswap : transcribe_handler st (some ⟨some a, some p⟩) env lenv =
        transcribe_handler { st with stt_provider := some prov }
          (some ⟨some a, none⟩) env lenv := by
      unfold transcribe_handler
      simp [ha, hex, hp, hcur, hc]
    refine ⟨hswap, ?_⟩
    rw [hswap]
    unfold transcribe_handler
    simp only [ha, hex]
    cases hm : WhisperProvider.transcribe prov env a <;>
      simp [ha, hex, hm]
  · intro hcur
    have hsame : transcribe_handler st (some ⟨some a, some p⟩) env lenv =
        transcribe_handler st (some ⟨some a, none⟩) env lenv := by
      unfold transcribe_handler
      simp [hcur]
    refine ⟨hsame, ?_⟩
    rw [hsame]
    unfold transcribe_handler
    simp only [ha, hex]
    cases hsp : st.stt_provider
    · simp [ha, hex, hsp]
    · rename_i prov
      cases hm : WhisperProvider.transcribe prov env a <;>
        simp [ha, hex, hsp, hm]

/-- Witness for C6: from an uninitialized state (current provider
`"unknown"`), overriding with `"whisper"` constructs and installs a fresh
adapter before transcribing. -/
theorem claim_C6_witness :
    transcribe_handler st0 (some ⟨some "a.wav", some "whisper"⟩) okSttEnv
        okOllamaEnv =
      transcribe_handler { st0 with stt_provider := some ⟨WhisperCfg.empty⟩ }
        (some ⟨some "a.wav", none⟩) okSttEnv okOllamaEnv ∧
    (transcribe_handler st0 (some ⟨some "a.wav", some "whisper"⟩) okSttEnv
        okOllamaEnv).1.stt_provider = some ⟨WhisperCfg.empty⟩ :=
  (claim_C6 st0 okSttEnv okOllamaEnv "a.wav" "whisper" (by decide) rfl).1
    (by decide) (by decide) ⟨WhisperCfg.empty⟩ rfl

/-- C10: when the `llm` configuration section is absent or omits the
`enabled` key, refinement defaults to enabled: `initialize_models`
constructs the refiner, and the transcribe handler applies it to the
engine's output on every successful transcription. -/
theorem claim_C10 (cfg : ServerConfig) (env : SttEnv) (lenv : OllamaEnv)
    (hmiss : cfg.llmSection = none ∨
             ∃ c, cfg.llmSection = some c ∧ c.enabled = none) :
    (∀ st, initialize_models cfg env = Except.ok st → st.llm = some ⟨cfg.llm⟩) ∧
    (∀ (st : ServerState) (a raw : String) (prov : WhisperProvider),
       st.config = cfg → st.llm = some ⟨cfg.llm⟩ →
       st.stt_provider = some prov → a ≠ "" → env.fileExists a = true →
       prov.transcribe env a = Except.ok raw →
       transcribe_handler st (some ⟨some a, none⟩) env lenv =
         (st, ⟨200, some (LLMProcessor.process ⟨cfg.llm⟩ lenv raw),
               some "whisper", none, none, none⟩)) := by
  have hen : cfg.llm.enabled = none := by
    rcases hmiss with h | ⟨c, hc, hce⟩
    · simp [ServerConfig.llm, h, LLMCfg.empty]
    · simp [ServerConfig.llm, hc, hce]
  constructor
  · intro st hinit
    unfold initialize_models at hinit
    cases hc : STT.create_provider (cfg.stt.provider.getD "whisper")
        (if cfg.stt.provider.getD "whisper" = "whisper" then cfg.whisper
         else WhisperCfg.empty) env
    · simp [hc] at hinit
    · simp [hc, hen] at hinit
      subst hinit
      rfl
  · intro st a raw prov hcfg hllm hprov ha hex htr
    unfold transcribe_handler
    simp [ha, hex, hprov, htr, hllm, hcfg, hen, get_current_provider]

/-- The all-sections-missing configuration. -/
def cfg0 : ServerConfig := ⟨none, none, none⟩

/-- A fully initialized state over `cfg0`: whisper adapter plus refiner. -/
def stLLM : ServerState :=
  ⟨cfg0, some ⟨WhisperCfg.empty⟩, some ⟨LLMCfg.empty⟩⟩

/-- Witness for C10: a configuration with no `llm` section yields a state
whose refiner is constructed, and a successful transcription against it is
post-processed by that refiner. -/
theorem claim_C10_witness :
    stLLM.llm = some ⟨cfg0.llm⟩ ∧
    transcribe_handler stLLM (some ⟨some "a.wav", none⟩) okSttEnv okOllamaEnv =
      (stLLM,
       ⟨200, some (LLMProcessor.process ⟨cfg0.llm⟩ okOllamaEnv "hello world"),
        some "whisper", none, none, none⟩) := by
  obtain ⟨h1, h2⟩ := claim_C10 cfg0 okSttEnv okOllamaEnv (Or.inl rfl)
  exact ⟨h1 stLLM (by rfl),
    h2 stLLM "a.wav" "hello world" ⟨WhisperCfg.empty⟩ rfl rfl rfl (by decide)
      rfl (by rfl)⟩

/-- A merged reload config has every key set, so `dict.update` with it
replaces the whole section regardless of what was there. -/
theorem update_mergeWhisperCfg (w' w : WhisperCfg) (d : ReloadBody) :
    WhisperCfg.update w' (mergeWhisperCfg w d) = mergeWhisperCfg w d := rfl

/-- Re-merging the same overrides over an already-merged section changes
nothing: keys from the body win again, and the remaining keys were pinned
by the first merge. -/
theorem merge_mergeWhisperCfg (w : WhisperCfg) (d : ReloadBody) :
    mergeWhisperCfg (mergeWhisperCfg w d) d = mergeWhisperCfg w d := by
  rcases d with ⟨dm, dl, dt, dtp⟩
  cases dm <;> cases dl <;> cases dt <;> cases dtp <;> rfl

/-- C4: two consecutive `reload_model` calls with identical override
arguments are idempotent: the second call returns exactly the first call's
session state and response (same effective merged configuration), because a
successful merge pins every whisper key in the in-memory config. -/
theorem claim_C4 (st : ServerState) (body : Option ReloadBody) (env : SttEnv) :
    reload_model_handler (reload_model_handler st body env).1 body env =
      reload_model_handler st body env := by
  cases body with
  | none => rfl
  | some d =>
    obtain ⟨⟨sttS, wS, llmS⟩, sp, lm⟩ := st
    cases wS with
    | none =>
      cases hc : WhisperProvider.create (mergeWhisperCfg WhisperCfg.empty d) env with
      | error e =>
        simp [reload_model_handler, ServerConfig.whisper, hc]
      | ok prov =>
        simp [reload_model_handler, ServerConfig.whisper, hc]
    | some w =>
      cases hc : WhisperProvider.create (mergeWhisperCfg w d) env with
      | error e =>
        simp [reload_model_handler, ServerConfig.whisper,
          update_mergeWhisperCfg, merge_mergeWhisperCfg, hc]
      | ok prov =>
        simp [reload_model_handler, ServerConfig.whisper,
          update_mergeWhisperCfg, merge_mergeWhisperCfg, hc]

end STTApp
